import Mathlib

/-!
Verification of the request-lifecycle scheduler of the generic buyer skill
(`packages/fetchai/skills/generic_buyer/behaviours.py`): the transaction
behaviour (`GenericTransactionBehaviour`) with its waiting queue, single
processing slot, timeout/retry handling, and the search behaviour
(`GenericSearchBehaviour`) that defers searching while transactions are
pending.

The state is embedded shallowly: time quantities (`processing_time`,
`max_processing`, `tick_interval`) are rationals standing for the Python
floats; the set of timed-out dialogue labels is a `Finset ℕ`, dialogue
labels being drawn fresh from a counter `next_label` each time
`_start_processing` creates a new ledger-api dialogue; messages put on the
outbox are recorded in an `outbox` list.  The type of fipa dialogues
(requests) is a parameter `F`.
-/

namespace GenericBuyer

/-- A ledger-api dialogue as the scheduler sees it: its dialogue label and
the fipa dialogue (request) it was created for
(`ledger_api_dialogue.associated_fipa_dialogue` in the source). -/
structure LedgerApiDialogue (F : Type) where
  dialogue_label : ℕ
  associated_fipa_dialogue : F
  deriving DecidableEq, Repr

/-- The mutable state of `GenericTransactionBehaviour` (`__init__`,
behaviours.py lines 116-128) plus the outbox of submitted ledger-api
requests and the fresh-label counter used by dialogue creation. -/
structure TxState (F : Type) where
  max_processing : ℚ
  tick_interval : ℚ
  processing_time : ℚ
  waiting : List F
  processing : Option (LedgerApiDialogue F)
  timedout : Finset ℕ
  next_label : ℕ
  outbox : List (LedgerApiDialogue F)
  deriving DecidableEq

namespace GenericTransactionBehaviour

variable {F : Type} [DecidableEq F]

/-- `_start_processing` (lines 151-172): pop the head of the waiting queue,
create a fresh ledger-api dialogue for it, reset the elapsed-time counter,
occupy the processing slot and put the request message on the outbox.
The source only calls it with a non-empty queue; on an empty queue we
return the state unchanged (the Python `pop(0)` would raise there, but the
branch is unreachable from `act`). -/
def _start_processing (s : TxState F) : TxState F :=
  match s.waiting with
  | [] => s
  | fipa_dialogue :: rest =>
      let ledger_api_dialogue : LedgerApiDialogue F :=
        ⟨s.next_label, fipa_dialogue⟩
      { s with
        waiting := rest
        next_label := s.next_label + 1
        processing_time := 0
        processing := some ledger_api_dialogue
        outbox := s.outbox ++ [ledger_api_dialogue] }

/-- `_timeout_processing` (lines 178-185): record the in-flight dialogue's
label in `timedout`, re-enqueue its request at the tail of the waiting
queue, reset the elapsed-time counter and clear the processing slot. -/
def _timeout_processing (s : TxState F) : TxState F :=
  match s.processing with
  | none => s
  | some ledger_api_dialogue =>
      { s with
        timedout := insert ledger_api_dialogue.dialogue_label s.timedout
        waiting := s.waiting ++ [ledger_api_dialogue.associated_fipa_dialogue]
        processing_time := 0
        processing := none }

/-- The tail of `act` after the processing-slot block (lines 146-149):
if the waiting queue is empty do nothing, otherwise start processing the
next transaction. -/
def act_dequeue (s : TxState F) : TxState F :=
  if s.waiting.length = 0 then s else _start_processing s

/-- `act` (lines 134-149): while the slot is occupied and
`processing_time <= max_processing`, add one tick interval to the elapsed
time and return; past that bound, time the item out and fall through to the
dequeue step of the same tick. -/
def act (s : TxState F) : TxState F :=
  match s.processing with
  | some _ =>
      if s.processing_time ≤ s.max_processing then
        { s with processing_time := s.processing_time + s.tick_interval }
      else
        act_dequeue (_timeout_processing s)
  | none => act_dequeue s

/-- `finish_processing` (lines 187-205): a reply matching the processing
slot clears the slot and resets the elapsed-time counter; otherwise a reply
whose dialogue label is not in `timedout` raises `ValueError`; otherwise
the label is removed from `timedout` and the reply discarded. -/
def finish_processing (s : TxState F)
    (ledger_api_dialogue : LedgerApiDialogue F) :
    Except String (TxState F) :=
  if s.processing = some ledger_api_dialogue then
    Except.ok { s with processing_time := 0, processing := none }
  else if ledger_api_dialogue.dialogue_label ∉ s.timedout then
    Except.error "Non-matching dialogues in transaction behaviour"
  else
    Except.ok
      { s with
        timedout := s.timedout.erase ledger_api_dialogue.dialogue_label }

/-- `failed_processing` (lines 207-216): run `finish_processing` (a raised
`ValueError` propagates), then append the failed request to the tail of
the waiting queue. -/
def failed_processing (s : TxState F)
    (ledger_api_dialogue : LedgerApiDialogue F) :
    Except String (TxState F) :=
  match finish_processing s ledger_api_dialogue with
  | Except.error e => Except.error e
  | Except.ok s1 =>
      Except.ok
        { s1 with
          waiting :=
            s1.waiting ++ [ledger_api_dialogue.associated_fipa_dialogue] }

end GenericTransactionBehaviour

/-- The state read and written by `GenericSearchBehaviour.act`: the
strategy object (of abstract type `Q`), the transaction behaviour's
waiting queue it inspects, and the outbox of search queries it has put. -/
structure SearchContext (Q : Type) where
  strategy : Q
  tx_waiting : List ℕ
  outbox : List ℕ
  deriving DecidableEq, Repr

namespace GenericSearchBehaviour

/-- `GenericSearchBehaviour.act` (lines 74-102), parameterized by the
strategy collaborator: reading `is_searching`, mutating the strategy via
`update_search_query_params` and reading the resulting query via
`get_location_and_service_query`.  If the strategy is not searching, or the
transaction behaviour has transactions remaining, return without doing
anything; otherwise update the query params and put a search message with
the resulting query on the outbox. -/
def act {Q : Type} (is_searching : Q → Bool)
    (update_search_query_params : Q → Q)
    (get_location_and_service_query : Q → ℕ)
    (st : SearchContext Q) : SearchContext Q :=
  if is_searching st.strategy = false then st
  else if 0 < st.tx_waiting.length then st
  else
    let strategy := update_search_query_params st.strategy
    { st with
      strategy := strategy
      outbox := st.outbox ++ [get_location_and_service_query strategy] }

end GenericSearchBehaviour

/-! Concrete states used by the scenario of §8 of the spec and by the
witnesses of the theorems below.  Fipa dialogues are numbered, so
`F := ℕ`; in the scenario, request A is `0` and request B is `1`. -/

/-- The scenario start state: queue `[A, B]`, empty slot, and
`max_processing = 2` ticks with a tick interval of one tick. -/
def sC3 : TxState ℕ :=
  { max_processing := 2, tick_interval := 1, processing_time := 0,
    waiting := [0, 1], processing := none, timedout := ∅,
    next_label := 0, outbox := [] }

/-- The scenario state after the first tick: A (label 0) in the slot. -/
def sC3t1 : TxState ℕ :=
  { max_processing := 2, tick_interval := 1, processing_time := 0,
    waiting := [1], processing := some ⟨0, 0⟩, timedout := ∅,
    next_label := 1, outbox := [⟨0, 0⟩] }

/-- The scenario state after the second tick: A still in flight,
elapsed time 1. -/
def sC3t2 : TxState ℕ :=
  { sC3t1 with processing_time := 1 }

/-- The scenario state after the third tick: A still in flight,
elapsed time 2. -/
def sC3t3 : TxState ℕ :=
  { sC3t1 with processing_time := 2 }

/-- The scenario state after the fourth tick: A still in flight,
elapsed time 3. -/
def sC3t4 : TxState ℕ :=
  { sC3t1 with processing_time := 3 }

/-- The scenario state after the fifth tick: A timed out and was
re-enqueued, B (label 1) was dequeued into the slot in the same tick. -/
def sC3t5 : TxState ℕ :=
  { max_processing := 2, tick_interval := 1, processing_time := 0,
    waiting := [0], processing := some ⟨1, 1⟩, timedout := {0},
    next_label := 2, outbox := [⟨0, 0⟩, ⟨1, 1⟩] }

/-- A sample scheduler state: two requests waiting, one in flight with
label 3, one timed-out label 4. -/
def wtx : TxState ℕ :=
  { max_processing := 120, tick_interval := 2, processing_time := 4,
    waiting := [7, 8], processing := some ⟨3, 9⟩, timedout := {4},
    next_label := 5, outbox := [] }

/-- The sample state with its in-flight request past the deadline. -/
def wtx2 : TxState ℕ :=
  { max_processing := 120, tick_interval := 2, processing_time := 121,
    waiting := [7, 8], processing := some ⟨3, 9⟩, timedout := {4},
    next_label := 5, outbox := [] }

/-- The sample state with an empty processing slot. -/
def wtx3 : TxState ℕ :=
  { max_processing := 120, tick_interval := 2, processing_time := 4,
    waiting := [7, 8], processing := none, timedout := {4},
    next_label := 5, outbox := [] }

/-- A sample state with no in-flight request and nothing timed out, on
which any reply is a contract violation. -/
def werr : TxState ℕ :=
  { max_processing := 120, tick_interval := 2, processing_time := 0,
    waiting := [], processing := none, timedout := ∅,
    next_label := 0, outbox := [] }

/-- A sample search-behaviour context whose strategy is not searching and
whose transaction queue is non-empty. -/
def wsearch : SearchContext ℕ :=
  { strategy := 0, tx_waiting := [5], outbox := [] }

/-- The result of finish_processing on wtx for the in-flight reply. -/
def wtxFin : TxState ℕ :=
  { max_processing := 120, tick_interval := 2, processing_time := 0,
    waiting := [7, 8], processing := none, timedout := {4},
    next_label := 5, outbox := [] }

/-- The result of failed_processing on wtx for the in-flight reply. -/
def wtxFail : TxState ℕ :=
  { max_processing := 120, tick_interval := 2, processing_time := 0,
    waiting := [7, 8, 9], processing := none, timedout := {4},
    next_label := 5, outbox := [] }

/-! ## Theorems -/

open GenericTransactionBehaviour

/-- C1: a reply delivered via finish_processing whose dialogue is the one
in the processing slot clears the slot and resets the elapsed-time counter
to 0, re-enqueueing nothing (the record-update equality fixes every other
field, the waiting queue included); otherwise, a reply whose dialogue
label is in the timed-out set removes that label and discards the reply;
otherwise a ValueError is raised and propagated. -/
theorem finish_processing_cases {F : Type} [DecidableEq F]
    (s : TxState F) (d : LedgerApiDialogue F) :
    (s.processing = some d →
      finish_processing s d =
        Except.ok { s with processing_time := 0, processing := none })
    ∧ (s.processing ≠ some d → d.dialogue_label ∈ s.timedout →
      finish_processing s d =
        Except.ok
          { s with timedout := s.timedout.erase d.dialogue_label })
    ∧ (s.processing ≠ some d → d.dialogue_label ∉ s.timedout →
      finish_processing s d =
        Except.error "Non-matching dialogues in transaction behaviour") := by
  refine ⟨fun h => ?_, fun h1 h2 => ?_, fun h1 h2 => ?_⟩
  · simp [finish_processing, h]
  · simp [finish_processing, h1, h2]
  · simp [finish_processing, h1, h2]

/-- Witness for C1: the three branches of finish_processing exercised on
the sample state wtx. -/
theorem finish_processing_cases_witness :
    finish_processing wtx ⟨3, 9⟩ =
      Except.ok { wtx with processing_time := 0, processing := none }
    ∧ finish_processing wtx ⟨4, 6⟩ =
      Except.ok { wtx with timedout := Finset.erase {4} 4 }
    ∧ finish_processing wtx ⟨6, 6⟩ =
      Except.error "Non-matching dialogues in transaction behaviour" :=
  ⟨(finish_processing_cases wtx ⟨3, 9⟩).1 rfl,
   (finish_processing_cases wtx ⟨4, 6⟩).2.1 (by decide) (by decide),
   (finish_processing_cases wtx ⟨6, 6⟩).2.2 (by decide) (by decide)⟩

/-- C5: a tick taken while the slot is occupied and the elapsed time is
still within max_processing only adds one tick interval to the
elapsed-time counter; the waiting queue, the in-flight request, the
timed-out set and the outbox are unchanged. -/
theorem act_processing_frame {F : Type} [DecidableEq F]
    (s : TxState F) (d : LedgerApiDialogue F)
    (hp : s.processing = some d)
    (ht : s.processing_time ≤ s.max_processing) :
    act s = { s with processing_time := s.processing_time + s.tick_interval }
    ∧ (act s).waiting = s.waiting
    ∧ (act s).processing = s.processing
    ∧ (act s).timedout = s.timedout
    ∧ (act s).outbox = s.outbox
    ∧ (act s).processing_time = s.processing_time + s.tick_interval := by
  have h : act s =
      { s with processing_time := s.processing_time + s.tick_interval } := by
    simp [act, hp, ht]
  simp [h]

/-- Witness for C5: a within-deadline tick on the sample state wtx. -/
theorem act_processing_frame_witness :
    act wtx = { wtx with processing_time := wtx.processing_time + wtx.tick_interval }
    ∧ (act wtx).waiting = wtx.waiting
    ∧ (act wtx).processing = wtx.processing
    ∧ (act wtx).timedout = wtx.timedout
    ∧ (act wtx).outbox = wtx.outbox
    ∧ (act wtx).processing_time = wtx.processing_time + wtx.tick_interval :=
  act_processing_frame wtx ⟨3, 9⟩ rfl (by norm_num [wtx])

/-- C6: a tick taken with an empty slot and a non-empty waiting queue
removes exactly the head of the queue, submits its request (one new
outbox message), places the new ledger-api dialogue in the slot and
resets the elapsed-time counter to 0. -/
theorem act_idle_dequeues_head {F : Type} [DecidableEq F]
    (s : TxState F) (f : F) (rest : List F)
    (hp : s.processing = none) (hw : s.waiting = f :: rest) :
    (act s).waiting = rest
    ∧ (act s).processing = some ⟨s.next_label, f⟩
    ∧ (act s).processing_time = 0
    ∧ (act s).outbox = s.outbox ++ [⟨s.next_label, f⟩]
    ∧ (act s).timedout = s.timedout := by
  simp [act, act_dequeue, _start_processing, hp, hw]

/-- Witness for C6: an idle tick on the sample state wtx3 dequeues the
head request 7. -/
theorem act_idle_dequeues_head_witness :
    (act wtx3).waiting = [8]
    ∧ (act wtx3).processing = some ⟨wtx3.next_label, 7⟩
    ∧ (act wtx3).processing_time = 0
    ∧ (act wtx3).outbox = wtx3.outbox ++ [⟨wtx3.next_label, 7⟩]
    ∧ (act wtx3).timedout = wtx3.timedout :=
  act_idle_dequeues_head wtx3 7 [8] rfl rfl

/-- C7: a late reply for a dialogue whose label is in the timed-out set,
arriving while a different dialogue occupies the processing slot, is
discarded: its label leaves the timed-out set while the slot, the
elapsed-time counter, the waiting queue and the outbox are unchanged. -/
theorem late_reply_discarded {F : Type} [DecidableEq F]
    (s : TxState F) (d d' : LedgerApiDialogue F)
    (hp : s.processing = some d') (hne : d' ≠ d)
    (ht : d.dialogue_label ∈ s.timedout) :
    ∃ s1, finish_processing s d = Except.ok s1
      ∧ s1.timedout = s.timedout.erase d.dialogue_label
      ∧ s1.processing = some d'
      ∧ s1.processing_time = s.processing_time
      ∧ s1.waiting = s.waiting
      ∧ s1.outbox = s.outbox := by
  have h1 : s.processing ≠ some d := by simp [hp, hne]
  have h2 : finish_processing s d =
      Except.ok { s with timedout := s.timedout.erase d.dialogue_label } := by
    simp [finish_processing, h1, ht]
  exact ⟨_, h2, rfl, hp, rfl, rfl, rfl⟩

/-- Witness for C7: on the sample state wtx, a late reply with timed-out
label 4 is discarded while dialogue 3 stays in flight. -/
theorem late_reply_discarded_witness :
    ∃ s1, finish_processing wtx ⟨4, 6⟩ = Except.ok s1
      ∧ s1.timedout = wtx.timedout.erase 4
      ∧ s1.processing = some ⟨3, 9⟩
      ∧ s1.processing_time = wtx.processing_time
      ∧ s1.waiting = wtx.waiting
      ∧ s1.outbox = wtx.outbox :=
  late_reply_discarded wtx ⟨4, 6⟩ ⟨3, 9⟩ rfl (by decide) (by decide)

/-- Helper: full characterization of a tick taken past the deadline — the
timed-out state, the fall-through into the dequeue step of the same tick,
and the state produced by that dequeue. -/
theorem act_timeout_spec {F : Type} [DecidableEq F]
    (s : TxState F) (d : LedgerApiDialogue F)
    (hp : s.processing = some d)
    (ht : ¬ s.processing_time ≤ s.max_processing) :
    ∃ f rest, s.waiting ++ [d.associated_fipa_dialogue] = f :: rest
      ∧ _timeout_processing s =
          { s with
            timedout := insert d.dialogue_label s.timedout
            waiting := s.waiting ++ [d.associated_fipa_dialogue]
            processing_time := 0
            processing := none }
      ∧ act s = _start_processing (_timeout_processing s)
      ∧ _start_processing (_timeout_processing s) =
          { s with
            timedout := insert d.dialogue_label s.timedout
            waiting := rest
            processing_time := 0
            processing := some ⟨s.next_label, f⟩
            next_label := s.next_label + 1
            outbox := s.outbox ++ [⟨s.next_label, f⟩] } := by
  have htp : _timeout_processing s =
      { s with
        timedout := insert d.dialogue_label s.timedout
        waiting := s.waiting ++ [d.associated_fipa_dialogue]
        processing_time := 0
        processing := none } := by
    simp [_timeout_processing, hp]
  have hact : act s = act_dequeue (_timeout_processing s) := by
    simp [act, hp, ht]
  obtain ⟨f, rest, hfr⟩ := List.exists_cons_of_ne_nil
    (show s.waiting ++ [d.associated_fipa_dialogue] ≠ [] by simp)
  have h5 : act s = _start_processing (_timeout_processing s) := by
    rw [hact]
    simp [act_dequeue, htp]
  have h6 : _start_processing (_timeout_processing s) =
      { s with
        timedout := insert d.dialogue_label s.timedout
        waiting := rest
        processing_time := 0
        processing := some ⟨s.next_label, f⟩
        next_label := s.next_label + 1
        outbox := s.outbox ++ [⟨s.next_label, f⟩] } := by
    rw [htp]
    simp [_start_processing, hfr]
  exact ⟨f, rest, hfr, htp, h5, h6⟩

/-- C2: a tick taken once the elapsed time exceeds max_processing records
the in-flight dialogue's label in the timed-out set, appends its request
to the tail of the waiting queue exactly once (the list equation), and
empties the processing slot, which the dequeue step of the same tick then
hands to the next waiting item (the head of the extended queue). -/
theorem tick_times_out_and_requeues_once {F : Type} [DecidableEq F]
    (s : TxState F) (d : LedgerApiDialogue F)
    (hp : s.processing = some d)
    (ht : ¬ s.processing_time ≤ s.max_processing) :
    (_timeout_processing s).timedout = insert d.dialogue_label s.timedout
    ∧ (_timeout_processing s).waiting =
        s.waiting ++ [d.associated_fipa_dialogue]
    ∧ (_timeout_processing s).processing = none
    ∧ (_timeout_processing s).processing_time = 0
    ∧ act s = _start_processing (_timeout_processing s)
    ∧ (act s).timedout = insert d.dialogue_label s.timedout
    ∧ ∃ f rest, s.waiting ++ [d.associated_fipa_dialogue] = f :: rest
        ∧ (act s).processing = some ⟨s.next_label, f⟩
        ∧ (act s).waiting = rest := by
  obtain ⟨f, rest, hfr, htp, h5, h6⟩ := act_timeout_spec s d hp ht
  refine ⟨by simp [htp], by simp [htp], by simp [htp], by simp [htp],
    h5, ?_, f, rest, hfr, ?_, ?_⟩ <;> simp [h5, h6]

/-- Witness for C2: a tick on the sample state wtx2, whose in-flight
request with label 3 is past the 120-tick deadline. -/
theorem tick_times_out_and_requeues_once_witness :
    (_timeout_processing wtx2).timedout = insert 3 wtx2.timedout
    ∧ (_timeout_processing wtx2).waiting = wtx2.waiting ++ [9]
    ∧ (_timeout_processing wtx2).processing = none
    ∧ (_timeout_processing wtx2).processing_time = 0
    ∧ act wtx2 = _start_processing (_timeout_processing wtx2)
    ∧ (act wtx2).timedout = insert 3 wtx2.timedout
    ∧ ∃ f rest, wtx2.waiting ++ [9] = f :: rest
        ∧ (act wtx2).processing = some ⟨wtx2.next_label, f⟩
        ∧ (act wtx2).waiting = rest :=
  tick_times_out_and_requeues_once wtx2 ⟨3, 9⟩ rfl (by norm_num [wtx2])

/-- Step lemma for the scenario: tick 1 dequeues A (label 0). -/
theorem sC3_step1 : act sC3 = sC3t1 := by
  norm_num [act, act_dequeue, _start_processing, sC3, sC3t1]

/-- Step lemma for the scenario: tick 2 only advances the elapsed time
to 1. -/
theorem sC3_step2 : act sC3t1 = sC3t2 := by
  norm_num [act, sC3t1, sC3t2]

/-- Step lemma for the scenario: tick 3 only advances the elapsed time
to 2. -/
theorem sC3_step3 : act sC3t2 = sC3t3 := by
  norm_num [act, sC3t1, sC3t2, sC3t3]

/-- Step lemma for the scenario: tick 4 only advances the elapsed time
to 3, since the timeout test is 2 ≤ 2 at the start of the tick. -/
theorem sC3_step4 : act sC3t3 = sC3t4 := by
  norm_num [act, sC3t1, sC3t3, sC3t4]

/-- Step lemma for the scenario: tick 5 times A out and dequeues B in the
same tick. -/
theorem sC3_step5 : act sC3t4 = sC3t5 := by
  norm_num [act, act_dequeue, _start_processing, _timeout_processing,
    sC3t1, sC3t4, sC3t5]

/-- C3 counterexample: in the scenario starting from queue [A, B] with
max_processing = 2 ticks, after three ticks request A (label 0) is still
in the processing slot, nothing has timed out, and A has not been
re-enqueued; after four ticks A is still in the slot, so B is not
dequeued at tick 4 either — contradicting the claim that tick 3 times A
out, leaves the slot empty, and tick 4 dequeues B. -/
theorem scheduler_scenario_counterexample :
    (act (act (act sC3))).processing = some ⟨0, 0⟩
    ∧ (act (act (act sC3))).timedout = ∅
    ∧ (act (act (act sC3))).waiting = [1]
    ∧ (act (act (act (act sC3)))).processing = some ⟨0, 0⟩ := by
  rw [sC3_step1, sC3_step2, sC3_step3, sC3_step4]
  refine ⟨?_, ?_, ?_, ?_⟩ <;> simp [sC3t1, sC3t3, sC3t4]

/-- C3 amended: in the scenario, tick 1 dequeues A into the slot; ticks
2-4 leave A in flight with elapsed time 1, 2, 3 (the timeout test is
elapsed > max, checked before the increment); at tick 5 A times out, its
label joins the timed-out set, A is re-enqueued at the tail, and B is
dequeued into the slot in that same tick, leaving queue [A]. -/
theorem scheduler_scenario_amended :
    act sC3 = sC3t1 ∧ act sC3t1 = sC3t2 ∧ act sC3t2 = sC3t3
    ∧ act sC3t3 = sC3t4 ∧ act sC3t4 = sC3t5
    ∧ sC3t3.processing = some ⟨0, 0⟩ ∧ sC3t3.processing_time = 2
    ∧ sC3t5.timedout = {0} ∧ sC3t5.waiting = [0]
    ∧ sC3t5.processing = some ⟨1, 1⟩ := by
  refine ⟨sC3_step1, sC3_step2, sC3_step3, sC3_step4, sC3_step5, ?_, ?_, ?_, ?_, ?_⟩ <;>
    simp [sC3t1, sC3t3, sC3t5]

/-- C4 counterexample: a failure reply that matches neither the
processing slot nor the timed-out set raises the ValueError from
finish_processing, so failed_processing does not re-enqueue it — the
re-enqueue is not unconditional. -/
theorem failed_processing_mismatch_counterexample :
    failed_processing werr ⟨0, 5⟩ =
      Except.error "Non-matching dialogues in transaction behaviour" := by
  simp [failed_processing, finish_processing, werr]

/-- C4 amended: a failure reply matching the processing slot clears the
slot and appends the failed request at the tail; one matching a timed-out
label removes the label and appends the failed request at the tail; one
matching neither propagates the ValueError and nothing is appended. -/
theorem failed_processing_cases {F : Type} [DecidableEq F]
    (s : TxState F) (d : LedgerApiDialogue F) :
    (s.processing = some d →
      failed_processing s d =
        Except.ok
          { s with
            processing_time := 0
            processing := none
            waiting := s.waiting ++ [d.associated_fipa_dialogue] })
    ∧ (s.processing ≠ some d → d.dialogue_label ∈ s.timedout →
      failed_processing s d =
        Except.ok
          { s with
            timedout := s.timedout.erase d.dialogue_label
            waiting := s.waiting ++ [d.associated_fipa_dialogue] })
    ∧ (s.processing ≠ some d → d.dialogue_label ∉ s.timedout →
      failed_processing s d =
        Except.error "Non-matching dialogues in transaction behaviour") := by
  refine ⟨fun h => ?_, fun h1 h2 => ?_, fun h1 h2 => ?_⟩
  · simp [failed_processing, finish_processing, h]
  · simp [failed_processing, finish_processing, h1, h2]
  · simp [failed_processing, finish_processing, h1, h2]

/-- Witness for the amended C4: the three branches of failed_processing
exercised on the sample state wtx. -/
theorem failed_processing_cases_witness :
    failed_processing wtx ⟨3, 9⟩ =
      Except.ok
        { wtx with
          processing_time := 0
          processing := none
          waiting := wtx.waiting ++ [9] }
    ∧ failed_processing wtx ⟨4, 6⟩ =
      Except.ok
        { wtx with
          timedout := Finset.erase {4} 4
          waiting := wtx.waiting ++ [6] }
    ∧ failed_processing wtx ⟨6, 6⟩ =
      Except.error "Non-matching dialogues in transaction behaviour" :=
  ⟨(failed_processing_cases wtx ⟨3, 9⟩).1 rfl,
   (failed_processing_cases wtx ⟨4, 6⟩).2.1 (by decide) (by decide),
   (failed_processing_cases wtx ⟨6, 6⟩).2.2 (by decide) (by decide)⟩

/-- C8: the processing slot holds at most one dialogue (it is an Option),
the reply and failure callbacks never submit a request (the outbox is
untouched whenever they return normally), and a tick submits a request
only by running start-processing on a state whose slot is empty — either
the tick's start state or the state left by the timeout step — placing
exactly one new message on the outbox, namely the request that then
occupies the slot. -/
theorem at_most_one_in_flight {F : Type} [DecidableEq F]
    (s : TxState F) (d : LedgerApiDialogue F) (s1 s2 : TxState F)
    (hf : finish_processing s d = Except.ok s1)
    (hg : failed_processing s d = Except.ok s2) :
    (∀ d1 d2 : LedgerApiDialogue F,
      s.processing = some d1 → s.processing = some d2 → d1 = d2)
    ∧ s1.outbox = s.outbox
    ∧ s2.outbox = s.outbox
    ∧ ((act s).outbox = s.outbox
      ∨ ∃ t f rest, t.processing = none
          ∧ (t = s ∨ t = _timeout_processing s)
          ∧ t.waiting = f :: rest
          ∧ act s = _start_processing t
          ∧ (act s).outbox = s.outbox ++ [⟨t.next_label, f⟩]
          ∧ (act s).processing = some ⟨t.next_label, f⟩) := by
  have hfo : s1.outbox = s.outbox := by
    have hf' := hf
    unfold finish_processing at hf'
    split_ifs at hf' <;> simp only [Except.ok.injEq] at hf' <;> rw [← hf']
  have hgo : s2.outbox = s.outbox := by
    have hgg : failed_processing s d =
        Except.ok
          { s1 with
            waiting := s1.waiting ++ [d.associated_fipa_dialogue] } := by
      unfold failed_processing
      rw [hf]
    rw [hgg] at hg
    simp only [Except.ok.injEq] at hg
    subst hg
    exact hfo
  refine ⟨?_, hfo, hgo, ?_⟩
  · intro d1 d2 h1 h2
    rw [h1] at h2
    exact Option.some.inj h2
  · rcases hps : s.processing with _ | dd
    · rcases hw : s.waiting with _ | ⟨f, rest⟩
      · left
        simp [act, act_dequeue, hps, hw]
      · right
        refine ⟨s, f, rest, hps, Or.inl rfl, hw, ?_, ?_, ?_⟩ <;>
          simp [act, act_dequeue, _start_processing, hps, hw]
    · by_cases htt : s.processing_time ≤ s.max_processing
      · left
        simp [act, hps, htt]
      · right
        obtain ⟨f, rest, hfr, htp, hact, hsp⟩ := act_timeout_spec s dd hps htt
        refine ⟨_timeout_processing s, f, rest, ?_, Or.inr rfl, ?_, hact, ?_, ?_⟩
        · simp [htp]
        · simp [htp, hfr]
        · rw [hact, hsp]
          simp [htp]
        · rw [hact, hsp]
          simp [htp]

/-- Witness for C8: the reply and failure callbacks for the in-flight
dialogue label 3 on the sample state wtx. -/
theorem at_most_one_in_flight_witness :
    (∀ d1 d2 : LedgerApiDialogue ℕ,
      wtx.processing = some d1 → wtx.processing = some d2 → d1 = d2)
    ∧ wtxFin.outbox = wtx.outbox
    ∧ wtxFail.outbox = wtx.outbox
    ∧ ((act wtx).outbox = wtx.outbox
      ∨ ∃ t f rest, t.processing = none
          ∧ (t = wtx ∨ t = _timeout_processing wtx)
          ∧ t.waiting = f :: rest
          ∧ act wtx = _start_processing t
          ∧ (act wtx).outbox = wtx.outbox ++ [⟨t.next_label, f⟩]
          ∧ (act wtx).processing = some ⟨t.next_label, f⟩) :=
  at_most_one_in_flight wtx ⟨3, 9⟩ wtxFin wtxFail
    (by simp [finish_processing, wtx, wtxFin])
    (by simp [failed_processing, finish_processing, wtx, wtxFail])

/-- C9: a failure reply for a dialogue whose label is already in the
timed-out set (the timeout tick having re-enqueued its request) appends
the same request to the waiting queue again, so while the earlier copy is
still in the queue, the queue then holds at least two copies of it. -/
theorem timed_out_failure_double_requeue {F : Type} [DecidableEq F]
    (s : TxState F) (d : LedgerApiDialogue F)
    (hne : s.processing ≠ some d)
    (ht : d.dialogue_label ∈ s.timedout)
    (hw : d.associated_fipa_dialogue ∈ s.waiting) :
    ∃ s1, failed_processing s d = Except.ok s1
      ∧ s1.waiting = s.waiting ++ [d.associated_fipa_dialogue]
      ∧ 2 ≤ s1.waiting.count d.associated_fipa_dialogue := by
  have h : failed_processing s d =
      Except.ok
        { s with
          timedout := s.timedout.erase d.dialogue_label
          waiting := s.waiting ++ [d.associated_fipa_dialogue] } := by
    simp [failed_processing, finish_processing, hne, ht]
  refine ⟨_, h, rfl, ?_⟩
  have h1 : 0 < s.waiting.count d.associated_fipa_dialogue :=
    List.count_pos_iff.mpr hw
  show 2 ≤ (s.waiting ++ [d.associated_fipa_dialogue]).count
    d.associated_fipa_dialogue
  rw [List.count_append]
  have h2 : List.count d.associated_fipa_dialogue
      [d.associated_fipa_dialogue] = 1 := by simp
  rw [h2]
  omega

/-- Witness for C9: on the sample state wtx, a failure reply for
timed-out label 4 whose request 7 is still waiting leaves two copies of
request 7 pending. -/
theorem timed_out_failure_double_requeue_witness :
    ∃ s1, failed_processing wtx ⟨4, 7⟩ = Except.ok s1
      ∧ s1.waiting = wtx.waiting ++ [7]
      ∧ 2 ≤ s1.waiting.count 7 :=
  timed_out_failure_double_requeue wtx ⟨4, 7⟩ (by decide) (by decide) (by decide)

/-- C10: the search behaviour's act leaves the whole context unchanged —
in particular puts nothing on the outbox — whenever the strategy is not
searching or the transaction behaviour's waiting queue is non-empty, and
conversely any run of act that grows the outbox happened with a searching
strategy and zero pending transactions. -/
theorem search_act_skips {Q : Type} (is_searching : Q → Bool)
    (update_search_query_params : Q → Q)
    (get_location_and_service_query : Q → ℕ)
    (st : SearchContext Q) :
    ((is_searching st.strategy = false ∨ st.tx_waiting ≠ []) →
      GenericSearchBehaviour.act is_searching update_search_query_params
        get_location_and_service_query st = st)
    ∧ ((GenericSearchBehaviour.act is_searching update_search_query_params
          get_location_and_service_query st).outbox ≠ st.outbox →
      is_searching st.strategy = true ∧ st.tx_waiting = []) := by
  constructor
  · rintro (h | h)
    · simp [GenericSearchBehaviour.act, h]
    · have hl : 0 < st.tx_waiting.length := List.length_pos.mpr h
      by_cases hs : is_searching st.strategy = false <;>
        simp [GenericSearchBehaviour.act, hs, hl]
  · intro h
    by_cases hs : is_searching st.strategy = false
    · exact absurd
        (show (GenericSearchBehaviour.act is_searching
            update_search_query_params get_location_and_service_query
            st).outbox = st.outbox by
          simp [GenericSearchBehaviour.act, hs]) h
    · by_cases hw : st.tx_waiting = []
      · exact ⟨by simpa using hs, hw⟩
      · have hl : 0 < st.tx_waiting.length := List.length_pos.mpr hw
        exact absurd
          (show (GenericSearchBehaviour.act is_searching
              update_search_query_params get_location_and_service_query
              st).outbox = st.outbox by
            simp [GenericSearchBehaviour.act, hs, hl]) h

/-- Witness for C10: on the sample context wsearch, whose strategy 0 is
not searching under the sample predicate, act changes nothing. -/
theorem search_act_skips_witness :
    GenericSearchBehaviour.act (fun q => decide (0 < q)) (fun q => q + 1)
      (fun q => q) wsearch = wsearch :=
  (search_act_skips (fun q => decide (0 < q)) (fun q => q + 1)
    (fun q => q) wsearch).1 (Or.inl (by decide))

end GenericBuyer
